import Mathlib

/-!
Shallow embedding of the AI-Drug-Peptide Workflow Orchestration Core
(`src/versions/1.0.0/src/core/workflow/orchestrator.py`) and of the data
cache validity check (`src/versions/1.0.0/bin/data_fetch_robust.py`).

Modelling conventions, stated once:

* Machine integers are `Nat` / `Int`; Python floats used for the cache
  timestamps are modelled as `Int` seconds, and `progress` (a Python float
  percentage) as `Rat`.
* A task's opaque callable `task.function(*task.args, **task.kwargs)` is
  modelled as a deterministic, already-applied outcome
  `function : Except String String` (error message or result).  `args`,
  `kwargs` and `metadata` are folded into that opaque outcome; the
  orchestrator never inspects them.
* Wall-clock effects (`datetime.now()` timestamping of `started_at` /
  `completed_at`, `time.sleep` in the retry backoff) are not modelled:
  no claim below depends on the recorded instants, only on which fields
  are set.  The timestamp *fields* are kept because state serialization
  traffics in them.
* `ThreadPoolExecutor` / `asyncio` parallel execution of one ready batch
  is sequentialized: each submitted task only mutates itself, so for the
  deterministic task outcomes modelled here the final per-task records
  and the completed/failed id sets agree with any interleaving.
* File I/O is made explicit: `PersistEnv` carries the state directory as
  an association list plus a `failing` flag modelling an I/O or
  serialization exception inside `StateManager.save_state`'s `try` block
  (the `except` clause logs and returns `False`).
-/

namespace Orchestrator

/-- TaskStatus enum of orchestrator.py (values "pending", ..., "retrying"). -/
inductive TaskStatus where
  | pending
  | running
  | completed
  | failed
  | cancelled
  | retrying
deriving DecidableEq, Repr

/-- WorkflowStatus enum of orchestrator.py (values "created", ..., "cancelled"). -/
inductive WorkflowStatus where
  | created
  | running
  | paused
  | completed
  | failed
  | cancelled
deriving DecidableEq, Repr

/-- Decidable equality for `Except`, needed to compare task records. -/
instance {ε α : Type} [DecidableEq ε] [DecidableEq α] : DecidableEq (Except ε α) := fun a b =>
  match a, b with
  | Except.ok x, Except.ok y =>
      if h : x = y then isTrue (by rw [h]) else isFalse (by intro hc; cases hc; exact h rfl)
  | Except.error x, Except.error y =>
      if h : x = y then isTrue (by rw [h]) else isFalse (by intro hc; cases hc; exact h rfl)
  | Except.ok _, Except.error _ => isFalse (by intro hc; cases hc)
  | Except.error _, Except.ok _ => isFalse (by intro hc; cases hc)

/-- The `Task` dataclass.  `function` is the opaque callable's outcome (see
header); `created_at`/`started_at`/`completed_at` are abstract instants. -/
structure Task where
  task_id : String
  name : String
  function : Except String String
  dependencies : List String := []
  retry_count : Nat := 0
  max_retries : Nat := 3
  timeout : Nat := 3600
  status : TaskStatus := TaskStatus.pending
  result : Option String := none
  error : Option String := none
  created_at : Nat := 0
  started_at : Option Nat := none
  completed_at : Option Nat := none
deriving DecidableEq, Repr

/-- The `WorkflowState` dataclass.  `tasks` is the `Dict[str, Task]` in
insertion order (Python dicts preserve it); keys are the `task_id`s. -/
structure WorkflowState where
  workflow_id : String
  name : String
  status : WorkflowStatus
  tasks : List Task := []
  created_at : Nat := 0
  started_at : Option Nat := none
  completed_at : Option Nat := none
  progress : Rat := 0
deriving DecidableEq, Repr

/-- ErrorHandler._schedule_retry: increment `retry_count`, set status
`RETRYING`, clear `error` (the `time.sleep` backoff is not modelled),
return `True` to the caller. -/
def scheduleRetry (t : Task) : Task :=
  { t with retry_count := t.retry_count + 1,
           status := TaskStatus.retrying,
           error := none }

/-- ErrorHandler.handle_task_error: record the error string and status
`FAILED`, then schedule a retry exactly when `retry_count < max_retries`
(returning `True`), else return `False` (the task failed terminally). -/
def handleTaskError (t : Task) (e : String) : Bool × Task :=
  let t1 := { t with error := some e, status := TaskStatus.failed }
  if t1.retry_count < t1.max_retries then
    (true, scheduleRetry t1)
  else
    (false, t1)

/-- WorkflowOrchestrator._execute_single_task: set `RUNNING`, run the task
function; on success set `COMPLETED` with the result; on failure set
`FAILED` with the error and consult `handle_task_error` — re-execute on a
scheduled retry, otherwise re-raise (modelled by returning the terminally
failed record; the caller inspects the final status).  Note the `timeout`
field is never consulted anywhere on this path. -/
def executeSingleTask (t : Task) : Task :=
  let tr := { t with status := TaskStatus.running }
  match tr.function with
  | Except.ok r =>
      { tr with status := TaskStatus.completed, result := some r }
  | Except.error e =>
      let tf := { tr with status := TaskStatus.failed, error := some e }
      match h : handleTaskError tf e with
      | (true, t2) => executeSingleTask t2
      | (false, t2) => t2
termination_by t.max_retries - t.retry_count
decreasing_by
  simp only [handleTaskError, scheduleRetry] at h
  split at h
  · simp only [Prod.mk.injEq] at h
    obtain ⟨-, h2⟩ := h
    subst h2
    simp_all
    omega
  · simp only [Prod.mk.injEq] at h
    exact absurd h.1 (by simp)

/-- StateManager's backing store: the state directory as an association list
from `workflow_id` to the last saved state (most recent first), plus a
`failing` flag injecting an I/O or serialization fault into every write.
The in-memory `_states` cache is not modelled separately: within one
process it mirrors the writes, and across a restart it is empty (the
on-disk byte-level content is modelled in the serialization section). -/
structure PersistEnv where
  disk : List (String × WorkflowState)
  failing : Bool
deriving DecidableEq, Repr

/-- StateManager.save_state: inside a `try` block, record the state under
its `workflow_id` and write the JSON file; any raised exception is caught,
logged, and turned into a `False` return with nothing written.  The
function is total (it never propagates an exception). -/
def saveState (env : PersistEnv) (ws : WorkflowState) : Bool × PersistEnv :=
  if env.failing then
    (false, env)
  else
    (true, { env with disk := (ws.workflow_id, ws) :: env.disk })

/-- StateManager.load_state hit/miss at the typed level: the most recently
saved record for the id, or `none`.  (The cold-start file parse, which is
where load actually fails, is modelled separately in the serialization
section below.) -/
def loadState (env : PersistEnv) (workflow_id : String) : Option WorkflowState :=
  (env.disk.find? (fun p => p.1 == workflow_id)).map (fun p => p.2)

/-- WorkflowOrchestrator._get_ready_tasks: tasks whose id is in neither the
`completed` nor the `failed` set and whose dependencies are all in
`completed`.  Note that the persisted `task.status` is never consulted. -/
def getReadyTasks (tasks : List Task) (completed failed : List String) : List Task :=
  tasks.filter (fun t =>
    !(completed.contains t.task_id || failed.contains t.task_id) &&
    t.dependencies.all (fun d => completed.contains d))

/-- Add an id to a set modelled as a duplicate-free list (`set.add`). -/
def insertId (s : List String) (i : String) : List String :=
  if s.contains i then s else s ++ [i]

/-- Replace each task of `tasks` by its updated record from `done` when one
with the same id is present (the Python loop mutates the shared `Task`
objects in place; `done` holds the post-execution records of the batch). -/
def updateTasks (tasks done : List Task) : List Task :=
  tasks.map (fun t =>
    match done.find? (fun d => d.task_id == t.task_id) with
    | some d => d
    | none => t)

/-- One-step body plus loop of WorkflowOrchestrator._execute_tasks.
While `|completed| + |failed| < |tasks|`: compute the ready set; if it is
empty, raise `WorkflowError` when `failed` is nonempty (modelled as
`some msg`) and break otherwise; else execute every ready task, add each
id to `completed` or `failed` according to whether its future raised,
update `progress`, save the state (return value ignored), and iterate.
`fuel` only bounds the recursion; `executeTasksP` supplies enough that the
bound is never the reason the loop stops (each iteration that recurses has
a nonempty ready batch and strictly grows `completed ++ failed`). -/
def executeTasksLoop : Nat → PersistEnv → WorkflowState → List String → List String →
    (WorkflowState × Option String) × PersistEnv
  | 0, env, ws, _, _ => ((ws, some "loop fuel exhausted"), env)
  | fuel + 1, env, ws, completed, failed =>
    if completed.length + failed.length < ws.tasks.length then
      let ready := getReadyTasks ws.tasks completed failed
      if ready.isEmpty then
        if failed.isEmpty then
          ((ws, none), env)
        else
          ((ws, some "Workflow blocked by failed tasks"), env)
      else
        let executed := ready.map executeSingleTask
        let completed2 := executed.foldl
          (fun acc t => if t.status = TaskStatus.completed then insertId acc t.task_id else acc)
          completed
        let failed2 := executed.foldl
          (fun acc t => if t.status = TaskStatus.completed then acc else insertId acc t.task_id)
          failed
        let ws2 := { ws with
          tasks := updateTasks ws.tasks executed,
          progress := (completed2.length * 100 : Rat) / (ws.tasks.length : Rat) }
        let env2 := (saveState env ws2).2
        executeTasksLoop fuel env2 ws2 completed2 failed2
    else
      ((ws, none), env)

/-- WorkflowOrchestrator._execute_tasks: run the loop starting from empty
`completed_tasks` and `failed_tasks` sets — regardless of any statuses the
tasks carry from a previous run. -/
def executeTasksP (env : PersistEnv) (ws : WorkflowState) :
    (WorkflowState × Option String) × PersistEnv :=
  executeTasksLoop (ws.tasks.length + 1) env ws [] []

/-- WorkflowOrchestrator.execute_workflow on an already loaded state: mark
the workflow `RUNNING` and save (return value ignored), run the tasks;
if no `WorkflowError` was raised mark `COMPLETED` with `progress = 100`
and save; on a raised error mark `FAILED`, save, notify, and re-raise
(modelled by returning the error alongside the final state). -/
def executeWorkflowP (env : PersistEnv) (ws0 : WorkflowState) :
    (WorkflowState × Option String) × PersistEnv :=
  let ws1 := { ws0 with status := WorkflowStatus.running }
  let env1 := (saveState env ws1).2
  let r := executeTasksP env1 ws1
  match r.1.2 with
  | none =>
      let ws3 := { r.1.1 with status := WorkflowStatus.completed, progress := 100 }
      ((ws3, none), (saveState r.2 ws3).2)
  | some e =>
      let ws3 := { r.1.1 with status := WorkflowStatus.failed }
      ((ws3, some e), (saveState r.2 ws3).2)

/-- WorkflowOrchestrator._validate_dependencies: collect the task ids, then
raise `WorkflowError` on the first dependency id not among them (outer
loop over tasks in order, inner loop over that task's dependencies).
There is no cycle check. -/
def validateDependencies (tasks : List Task) : Except String Unit :=
  let task_ids := tasks.map Task.task_id
  match tasks.findSome? (fun t =>
      (t.dependencies.find? (fun d => !(task_ids.contains d))).map (fun d => (t.task_id, d))) with
  | some pr => Except.error ("Task " ++ pr.1 ++ " depends on non-existent task " ++ pr.2)
  | none => Except.ok ()

/-- WorkflowOrchestrator.create_workflow: validate the dependencies (a
raised `WorkflowError` propagates before anything is saved), then build
the `CREATED` state and save it.  The fresh `uuid4` is modelled by the
fixed fresh id "wf-0"; `{task.task_id: task for task in tasks}` keeps the
given order (the claims use duplicate-free ids). -/
def createWorkflow (env : PersistEnv) (name : String) (tasks : List Task) :
    Except String (WorkflowState × PersistEnv) :=
  match validateDependencies tasks with
  | Except.error e => Except.error e
  | Except.ok _ =>
    let ws : WorkflowState :=
      { workflow_id := "wf-0", name := name, status := WorkflowStatus.created, tasks := tasks }
    Except.ok (ws, (saveState env ws).2)

/-- WorkflowOrchestrator.pause_workflow on a loaded state: unconditionally
set `PAUSED` — the current status, terminal or not, is never inspected. -/
def pauseWorkflowState (ws : WorkflowState) : WorkflowState :=
  { ws with status := WorkflowStatus.paused }

/-- WorkflowOrchestrator.pause_workflow: load the state (`False` when the
id is unknown), set `PAUSED`, save, return `True`. -/
def pauseWorkflow (env : PersistEnv) (workflow_id : String) : Bool × PersistEnv :=
  match loadState env workflow_id with
  | none => (false, env)
  | some ws => (true, (saveState env (pauseWorkflowState ws)).2)

/-- WorkflowOrchestrator.cancel_workflow on a loaded state: mark every
`RUNNING` task `CANCELLED` (the scheduler-side `cancel_task` is a
best-effort side effect on the thread pool), then unconditionally set the
workflow status `CANCELLED` — even when it is already terminal. -/
def cancelWorkflowState (ws : WorkflowState) : WorkflowState :=
  { ws with
    status := WorkflowStatus.cancelled,
    tasks := ws.tasks.map (fun t =>
      if t.status = TaskStatus.running then { t with status := TaskStatus.cancelled } else t) }

/-- WorkflowOrchestrator.cancel_workflow: load the state (`False` when the
id is unknown), cancel running tasks, set `CANCELLED`, save, return
`True`. -/
def cancelWorkflow (env : PersistEnv) (workflow_id : String) : Bool × PersistEnv :=
  match loadState env workflow_id with
  | none => (false, env)
  | some ws => (true, (saveState env (cancelWorkflowState ws)).2)

/-- WorkflowOrchestrator.resume_workflow: load the state (`False` when the
id is unknown); return `False` without touching anything unless the status
is exactly `PAUSED`; otherwise spawn `execute_workflow` asynchronously
(modelled by applying it to the loaded state) and return `True`. -/
def resumeWorkflow (env : PersistEnv) (workflow_id : String) : Bool × PersistEnv :=
  match loadState env workflow_id with
  | none => (false, env)
  | some ws =>
    if ws.status = WorkflowStatus.paused then
      (true, (executeWorkflowP env ws).2)
    else
      (false, env)

/-! State serialization (StateManager.save_state / load_state at the file
level).  `save_state` builds `asdict(state)`, converts only the *top-level*
`datetime` values with `.isoformat()`, and then `json.dump`s with
`default=str`: nested task `datetime`s go through `str` (a form
`datetime.fromisoformat` accepts back), the opaque callable in `function`
becomes its `str` representation, and — decisively — every `Enum` value is
serialized as `str(enum)`, i.e. `"TaskStatus.PENDING"` /
`"WorkflowStatus.CREATED"`, not as its `.value`.  `load_state` parses the
file, converts the timestamp strings back with `fromisoformat` (this
round-trips and is modelled as the identity on the abstract instants), and
reconstructs the enums with `TaskStatus(value)` / `WorkflowStatus(value)`,
which accept only the lowercase `.value` strings; anything else raises
`ValueError`, which the surrounding `try` turns into a `None` return. -/

/-- The `.value` string of a TaskStatus member (what `TaskStatus(...)` accepts). -/
def taskStatusValue : TaskStatus → String
  | TaskStatus.pending => "pending"
  | TaskStatus.running => "running"
  | TaskStatus.completed => "completed"
  | TaskStatus.failed => "failed"
  | TaskStatus.cancelled => "cancelled"
  | TaskStatus.retrying => "retrying"

/-- `str(TaskStatus.X)` as produced by `json.dump(..., default=str)`. -/
def pyStrTaskStatus : TaskStatus → String
  | TaskStatus.pending => "TaskStatus.PENDING"
  | TaskStatus.running => "TaskStatus.RUNNING"
  | TaskStatus.completed => "TaskStatus.COMPLETED"
  | TaskStatus.failed => "TaskStatus.FAILED"
  | TaskStatus.cancelled => "TaskStatus.CANCELLED"
  | TaskStatus.retrying => "TaskStatus.RETRYING"

/-- `TaskStatus(s)`: the member whose `.value` equals `s`, else `ValueError`
(modelled as `none`). -/
def parseTaskStatus (s : String) : Option TaskStatus :=
  if s = "pending" then some TaskStatus.pending
  else if s = "running" then some TaskStatus.running
  else if s = "completed" then some TaskStatus.completed
  else if s = "failed" then some TaskStatus.failed
  else if s = "cancelled" then some TaskStatus.cancelled
  else if s = "retrying" then some TaskStatus.retrying
  else none

/-- The `.value` string of a WorkflowStatus member. -/
def workflowStatusValue : WorkflowStatus → String
  | WorkflowStatus.created => "created"
  | WorkflowStatus.running => "running"
  | WorkflowStatus.paused => "paused"
  | WorkflowStatus.completed => "completed"
  | WorkflowStatus.failed => "failed"
  | WorkflowStatus.cancelled => "cancelled"

/-- `str(WorkflowStatus.X)` as produced by `json.dump(..., default=str)`. -/
def pyStrWorkflowStatus : WorkflowStatus → String
  | WorkflowStatus.created => "WorkflowStatus.CREATED"
  | WorkflowStatus.running => "WorkflowStatus.RUNNING"
  | WorkflowStatus.paused => "WorkflowStatus.PAUSED"
  | WorkflowStatus.completed => "WorkflowStatus.COMPLETED"
  | WorkflowStatus.failed => "WorkflowStatus.FAILED"
  | WorkflowStatus.cancelled => "WorkflowStatus.CANCELLED"

/-- `WorkflowStatus(s)`: the member whose `.value` equals `s`, else
`ValueError` (modelled as `none`). -/
def parseWorkflowStatus (s : String) : Option WorkflowStatus :=
  if s = "created" then some WorkflowStatus.created
  else if s = "running" then some WorkflowStatus.running
  else if s = "paused" then some WorkflowStatus.paused
  else if s = "completed" then some WorkflowStatus.completed
  else if s = "failed" then some WorkflowStatus.failed
  else if s = "cancelled" then some WorkflowStatus.cancelled
  else none

/-- The on-disk JSON image of one task: statuses and the callable are plain
strings; the timestamp round trip `fromisoformat ∘ str` is the identity on
the abstract instants, so those fields keep their carrier type. -/
structure SerTask where
  task_id : String
  name : String
  function : String
  dependencies : List String
  retry_count : Nat
  max_retries : Nat
  timeout : Nat
  status : String
  result : Option String
  error : Option String
  created_at : Nat
  started_at : Option Nat
  completed_at : Option Nat
deriving DecidableEq, Repr

/-- The JSON image of a task as written by save_state: the enum goes
through `default=str`, the callable becomes an opaque repr string. -/
def serializeTask (t : Task) : SerTask :=
  { task_id := t.task_id
    name := t.name
    function := "<function repr>"
    dependencies := t.dependencies
    retry_count := t.retry_count
    max_retries := t.max_retries
    timeout := t.timeout
    status := pyStrTaskStatus t.status
    result := t.result
    error := t.error
    created_at := t.created_at
    started_at := t.started_at
    completed_at := t.completed_at }

/-- The on-disk JSON image of a whole workflow state. -/
structure SerWorkflowState where
  workflow_id : String
  name : String
  status : String
  tasks : List SerTask
  created_at : Nat
  started_at : Option Nat
  completed_at : Option Nat
  progress : Rat
deriving DecidableEq, Repr

/-- The JSON document written by save_state: top-level datetimes through
`.isoformat()` (identity on the abstract instants), everything else
through `json.dump(default=str)` — in particular the workflow status enum
becomes `str(status)`. -/
def serializeState (ws : WorkflowState) : SerWorkflowState :=
  { workflow_id := ws.workflow_id
    name := ws.name
    status := pyStrWorkflowStatus ws.status
    tasks := ws.tasks.map serializeTask
    created_at := ws.created_at
    started_at := ws.started_at
    completed_at := ws.completed_at
    progress := ws.progress }

/-- load_state's per-task reconstruction: convert the datetime fields, then
`TaskStatus(task_data['status'])` — `none` models the `ValueError` raised
before `Task(**task_data)` is ever built.  When the status does parse
(never the case for save_state output), the callable cannot be restored
from its repr string; the typed model records that as an error outcome. -/
def parseTask (s : SerTask) : Option Task := do
  let st ← parseTaskStatus s.status
  some { task_id := s.task_id
         name := s.name
         function := Except.error "unrestorable callable repr"
         dependencies := s.dependencies
         retry_count := s.retry_count
         max_retries := s.max_retries
         timeout := s.timeout
         status := st
         result := s.result
         error := s.error
         created_at := s.created_at
         started_at := s.started_at
         completed_at := s.completed_at }

/-- load_state's reconstruction of the whole document: datetimes, then each
task (first `ValueError` aborts), then `WorkflowStatus(state_data['status'])`;
any failure is caught and yields `None`. -/
def parseState (s : SerWorkflowState) : Option WorkflowState := do
  let tasks ← s.tasks.mapM parseTask
  let st ← parseWorkflowStatus s.status
  some { workflow_id := s.workflow_id
         name := s.name
         status := st
         tasks := tasks
         created_at := s.created_at
         started_at := s.started_at
         completed_at := s.completed_at
         progress := s.progress }

/-- The state directory at the byte level: `workflow_id`.json files, most
recent write first. -/
def SerDisk : Type := List (String × SerWorkflowState)

/-- save_state's file write: serialize and store under the workflow id. -/
def saveStateToDisk (disk : SerDisk) (ws : WorkflowState) : SerDisk :=
  (ws.workflow_id, serializeState ws) :: disk

/-- load_state on a cold start (empty in-memory `_states`): a missing file
returns `None`; an existing file is parsed, and a parse failure is caught
and returns `None`. -/
def loadStateFromDisk (disk : SerDisk) (workflow_id : String) : Option WorkflowState :=
  match disk.find? (fun p => p.1 == workflow_id) with
  | none => none
  | some p => parseState p.2

end Orchestrator

namespace DataCache

/-! Cache validity check of `bin/data_fetch_robust.py` (`DataCache`). -/

/-- One element of the manifest's `files` list: the recorded `path`, the
recorded `size` (the code reads it with `.get('size', 0)`), and the
recorded sha256 under the optional key `'hash'`. -/
structure CacheFileInfo where
  path : String
  size : Nat
  hash : Option String
deriving DecidableEq, Repr

/-- The `cache_info.json` manifest: write `timestamp` (seconds, read with
`.get('timestamp', 0)`) and the `files` list.  `source`, `metadata` and
`created_at` are never consulted by the validity check. -/
structure CacheInfo where
  timestamp : Int
  files : List CacheFileInfo
deriving DecidableEq, Repr

/-- The observable filesystem: for each path, `none` when the file does not
exist, otherwise its actual size (`stat().st_size`) and the sha256 hex
digest `_calculate_hash` computes from its bytes. -/
def FileSystem : Type := String → Option (Nat × String)

/-- The per-file portion of DataCache.is_cache_valid: the file must exist,
its size must equal the recorded size, and — only when the manifest entry
carries a `'hash'` key — its digest must equal the recorded one. -/
def checkFile (fs : FileSystem) (fi : CacheFileInfo) : Bool :=
  match fs fi.path with
  | none => false
  | some sd =>
    if sd.1 != fi.size then false
    else
      match fi.hash with
      | none => true
      | some h => sd.2 == h

/-- DataCache.is_cache_valid at time `now`: `False` when the manifest file
is missing; `False` when `now - timestamp > 86400` (the hard-coded
24-hour TTL); otherwise every listed file must pass `checkFile`.  The
whole body sits in a `try` whose `except` returns `False`, so the check
is total and never raises. -/
def isCacheValid (now : Int) (manifest : Option CacheInfo) (fs : FileSystem) : Bool :=
  match manifest with
  | none => false
  | some ci =>
    if now - ci.timestamp > 86400 then false
    else ci.files.all (checkFile fs)

/-- Modelled from the spec's words, for comparison with `isCacheValid`:
"Cache is valid iff: manifest present AND now − timestamp ≤ ttl AND for
every listed file: exists, size matches, sha256 matches" (the spec's
manifest schema records a sha256 for every file). -/
def specCacheValid (now : Int) (manifest : Option CacheInfo) (fs : FileSystem) : Prop :=
  ∃ ci, manifest = some ci ∧ now - ci.timestamp ≤ 86400 ∧
    ∀ fi ∈ ci.files, ∃ h, fi.hash = some h ∧ fs fi.path = some (fi.size, h)

/-- DataCache.save_cache_info: record the write time and the file list in a
fresh manifest (`source`, `metadata`, `created_at` omitted as above). -/
def saveCacheInfo (now : Int) (files : List CacheFileInfo) : CacheInfo :=
  { timestamp := now, files := files }

end DataCache

open Orchestrator DataCache

/-- A topological order for a task set: a duplicate-free arrangement of ids
containing every task's id in which each task comes strictly after all of
its dependencies.  Used to state the spec's acyclicity consequence. -/
def isTopoOrder (tasks : List Task) (ord : List String) : Prop :=
  ord.Nodup ∧ (∀ t ∈ tasks, t.task_id ∈ ord) ∧
    ∀ t ∈ tasks, ∀ d ∈ t.dependencies, ord.indexOf d < ord.indexOf t.task_id

/-- Empty, healthy persistence environment. -/
def env0 : PersistEnv := { disk := [], failing := false }

/-- Workflow state around a given task list, as create_workflow builds it. -/
def mkWs (ts : List Task) : WorkflowState :=
  { workflow_id := "w", name := "n", status := WorkflowStatus.created, tasks := ts }

/-- A task whose function succeeds. -/
def exOk : Task := { task_id := "t1", name := "first", function := Except.ok "ok" }

/-- A task whose function always raises; no retry budget. -/
def exFail : Task :=
  { task_id := "t1", name := "first", function := Except.error "boom", max_retries := 0 }

/-- A task depending on "t1" whose function would succeed. -/
def exDep : Task :=
  { task_id := "t2", name := "second", function := Except.ok "ok", dependencies := ["t1"] }

/-- A task persisted as COMPLETED from a previous run whose function raises
when invoked again: any change to its record proves it was re-executed. -/
def exDone : Task :=
  { task_id := "t1", name := "first", function := Except.error "boom",
    max_retries := 0, status := TaskStatus.completed, result := some "old result" }

/-- A succeeding task with `timeout = 0`. -/
def exZeroTimeout : Task :=
  { task_id := "t1", name := "first", function := Except.ok "ok", timeout := 0 }

/-- Cyclic pair: "a" depends on "b"... -/
def cycA : Task :=
  { task_id := "a", name := "a", function := Except.ok "ra", dependencies := ["b"] }

/-- ...and "b" depends on "a"; every dependency id exists in the set. -/
def cycB : Task :=
  { task_id := "b", name := "b", function := Except.ok "rb", dependencies := ["a"] }

/-- The state create_workflow builds for the cyclic pair. -/
def cycWs : WorkflowState :=
  { workflow_id := "wf-0", name := "cyc", status := WorkflowStatus.created, tasks := [cycA, cycB] }

/-- A workflow already in the terminal status COMPLETED. -/
def doneWs : WorkflowState :=
  { workflow_id := "w1", name := "done", status := WorkflowStatus.completed,
    tasks := [{ exOk with status := TaskStatus.completed, result := some "ok" }], progress := 100 }

/-- An environment holding only the COMPLETED workflow. -/
def doneEnv : PersistEnv := { disk := [("w1", doneWs)], failing := false }

/-- A one-task workflow whose task succeeds. -/
def okWs : WorkflowState := mkWs [exOk]

/-- The record `exFail` ends in: terminally FAILED. -/
def exFailDone : Task := { exFail with status := TaskStatus.failed, error := some "boom" }

/-- The record the re-executed `exDone` ends in: its persisted COMPLETED
status and old result are overwritten by the fresh failing attempt. -/
def exDoneFailed : Task := { exDone with status := TaskStatus.failed, error := some "boom" }

/-- A concrete manifest entry with a recorded digest. -/
def exFileInfo : CacheFileInfo := { path := "cache/ncbi/seq.fasta", size := 5, hash := some "d1gest" }

/-- A concrete manifest. -/
def exManifest : CacheInfo := { timestamp := 1000, files := [exFileInfo] }

/-- A filesystem agreeing with `exManifest`. -/
def exFs : FileSystem := fun p => if p = "cache/ncbi/seq.fasta" then some (5, "d1gest") else none

/-! Helper lemmas about the single-task execution path. -/

/-- Field accounting for one `handle_task_error` call. -/
theorem handleTaskError_fields (t : Task) (e : String) (b : Bool) (t2 : Task)
    (h : handleTaskError t e = (b, t2)) :
    t2.function = t.function ∧ t2.max_retries = t.max_retries ∧ t2.timeout = t.timeout ∧
    (b = true → t2.retry_count = t.retry_count + 1 ∧ t.retry_count < t.max_retries ∧
      t2.status = TaskStatus.retrying ∧ t2.error = none) ∧
    (b = false → t2.retry_count = t.retry_count ∧ t2.status = TaskStatus.failed ∧
      t2.error = some e ∧ ¬ t.retry_count < t.max_retries) := by
  simp only [handleTaskError, scheduleRetry] at h
  split at h
  · obtain ⟨hb, ht⟩ := Prod.mk.injEq .. ▸ h
    subst hb; subst ht
    simp_all
  · obtain ⟨hb, ht⟩ := Prod.mk.injEq .. ▸ h
    subst hb; subst ht
    simp_all

/-- Unfolding executeSingleTask on a succeeding function. -/
theorem executeSingleTask_ok (t : Task) (r : String) (h : t.function = Except.ok r) :
    executeSingleTask t = { t with status := TaskStatus.completed, result := some r } := by
  rw [executeSingleTask.eq_def]
  simp [h]

/-- Unfolding executeSingleTask on a failing function with retry budget left. -/
theorem executeSingleTask_error_retry (t : Task) (e : String) (h : t.function = Except.error e)
    (t2 : Task)
    (hp : handleTaskError { t with status := TaskStatus.failed, error := some e } e = (true, t2)) :
    executeSingleTask t = executeSingleTask t2 := by
  rw [executeSingleTask.eq_def]
  simp only [h]
  split
  · next t3 hmatch =>
    have hmm := hp.symm.trans hmatch
    injection hmm with hb ht
    rw [ht]
  · next t3 hmatch =>
    have hmm := hp.symm.trans hmatch
    injection hmm with hb ht
    cases hb

/-- Unfolding executeSingleTask on a failing function with retries exhausted. -/
theorem executeSingleTask_error_stop (t : Task) (e : String) (h : t.function = Except.error e)
    (t2 : Task)
    (hp : handleTaskError { t with status := TaskStatus.failed, error := some e } e = (false, t2)) :
    executeSingleTask t = t2 := by
  rw [executeSingleTask.eq_def]
  simp only [h]
  split
  · next t3 hmatch =>
    have hmm := hp.symm.trans hmatch
    injection hmm with hb ht
    cases hb
  · next t3 hmatch =>
    have hmm := hp.symm.trans hmatch
    injection hmm with hb ht
    rw [ht]

/-- Outcome accounting for a whole executeSingleTask run: the final status
is decided by the function outcome alone, the configuration fields pass
through untouched, and the retry counter respects its budget. -/
theorem executeSingleTask_spec (t : Task) :
    (executeSingleTask t).status = (match t.function with
      | Except.ok _ => TaskStatus.completed
      | Except.error _ => TaskStatus.failed) ∧
    (executeSingleTask t).timeout = t.timeout ∧
    (executeSingleTask t).function = t.function ∧
    (executeSingleTask t).max_retries = t.max_retries ∧
    (t.retry_count ≤ t.max_retries → (executeSingleTask t).retry_count ≤ t.max_retries) := by
  induction t using executeSingleTask.induct with
  | case1 x tr r heq =>
    have h : x.function = Except.ok r := heq
    rw [executeSingleTask_ok x r h]
    simp [h]
  | case2 x tr e heq tf t2 hp ih =>
    have h : x.function = Except.error e := heq
    have hp2 : handleTaskError { x with status := TaskStatus.failed, error := some e } e
        = (true, t2) := hp
    rw [executeSingleTask_error_retry x e h t2 hp2]
    obtain ⟨hf, hm, hto, hrc, -⟩ := handleTaskError_fields _ _ _ _ hp2
    have hf2 : t2.function = x.function := hf
    have hm2 : t2.max_retries = x.max_retries := hm
    have hto2 : t2.timeout = x.timeout := hto
    obtain ⟨hrc1, hrc2, -, -⟩ := hrc rfl
    have hrc12 : t2.retry_count = x.retry_count + 1 := hrc1
    have hrc22 : x.retry_count < x.max_retries := hrc2
    obtain ⟨ih1, ih2, ih3, ih4, ih5⟩ := ih
    refine ⟨?_, ?_, ?_, ?_, ?_⟩
    · rw [ih1, hf2, h]
    · rw [ih2, hto2]
    · rw [ih3, hf2]
    · rw [ih4, hm2]
    · intro hle
      have h2 := ih5 (by rw [hrc12, hm2]; omega)
      rw [hm2] at h2
      exact h2
  | case3 x tr e heq tf t2 hp =>
    have h : x.function = Except.error e := heq
    have hp2 : handleTaskError { x with status := TaskStatus.failed, error := some e } e
        = (false, t2) := hp
    rw [executeSingleTask_error_stop x e h t2 hp2]
    obtain ⟨hf, hm, hto, -, hrc⟩ := handleTaskError_fields _ _ _ _ hp2
    have hf2 : t2.function = x.function := hf
    have hm2 : t2.max_retries = x.max_retries := hm
    have hto2 : t2.timeout = x.timeout := hto
    obtain ⟨hrc1, hst, -, -⟩ := hrc rfl
    have hrc12 : t2.retry_count = x.retry_count := hrc1
    refine ⟨?_, ?_, ?_, ?_, ?_⟩
    · rw [hst, h]
    · exact hto2
    · exact hf2
    · exact hm2
    · intro hle; rw [hrc12]; exact hle

/-- Evaluation of the failing example task: no budget, one attempt, terminal. -/
theorem exFail_run : executeSingleTask exFail =
    { exFail with status := TaskStatus.failed, error := some "boom" } := by
  have hp : handleTaskError { exFail with status := TaskStatus.failed, error := some "boom" } "boom"
      = (false, { exFail with status := TaskStatus.failed, error := some "boom" }) := by
    decide
  exact executeSingleTask_error_stop exFail "boom" rfl _ hp

/-- Evaluation of the succeeding example task. -/
theorem exOk_run : executeSingleTask exOk =
    { exOk with status := TaskStatus.completed, result := some "ok" } :=
  executeSingleTask_ok exOk "ok" rfl

/-- Evaluation of the re-executed previously-COMPLETED task: its function is
invoked again and fails, overwriting the persisted record. -/
theorem exDone_run : executeSingleTask exDone =
    { exDone with status := TaskStatus.failed, error := some "boom" } := by
  have hp : handleTaskError { exDone with status := TaskStatus.failed, error := some "boom" } "boom"
      = (false, { exDone with status := TaskStatus.failed, error := some "boom" }) := by
    decide
  exact executeSingleTask_error_stop exDone "boom" rfl _ hp

/-- C7: the claim says each execution attempt is bounded by `task.timeout`,
a longer run fails with a Timeout error, and `timeout = 0` fails
immediately.  The code never reads `task.timeout`: neither
`TaskScheduler._execute_task` nor `_execute_single_task` passes it to
anything, so the outcome is decided by the function alone and the
`timeout` field merely passes through unchanged — no Timeout failure
exists anywhere on the execution path. -/
theorem executeSingleTask_timeout_unused (t : Task) :
    (executeSingleTask t).status = (match t.function with
      | Except.ok _ => TaskStatus.completed
      | Except.error _ => TaskStatus.failed) ∧
    (executeSingleTask t).timeout = t.timeout ∧
    (executeSingleTask t).function = t.function :=
  ⟨(executeSingleTask_spec t).1, (executeSingleTask_spec t).2.1, (executeSingleTask_spec t).2.2.1⟩

/-- C7 counterexample: a succeeding task with `timeout = 0` completes
normally instead of failing immediately with a Timeout error. -/
theorem timeout_zero_still_completes :
    executeSingleTask exZeroTimeout
      = { exZeroTimeout with status := TaskStatus.completed, result := some "ok" } ∧
    exZeroTimeout.timeout = 0 ∧
    (executeSingleTask exZeroTimeout).status = TaskStatus.completed :=
  ⟨executeSingleTask_ok exZeroTimeout "ok" rfl, rfl, by
    rw [executeSingleTask_ok exZeroTimeout "ok" rfl]⟩

/-- C8: starting within budget, `handle_task_error` schedules a retry
exactly when `retry_count < max_retries`, each scheduling increments
`retry_count` by exactly one (status `RETRYING`), a `False` return leaves
the counter unchanged with terminal status `FAILED`, the bound
`retry_count ≤ max_retries` is preserved, and it also holds at the end of
a whole (arbitrarily retried) `_execute_single_task` run. -/
theorem retry_bound_invariant (t : Task) (e : String) (h : t.retry_count ≤ t.max_retries) :
    ((handleTaskError t e).1 = true ↔ t.retry_count < t.max_retries) ∧
    ((handleTaskError t e).1 = true →
      (handleTaskError t e).2.retry_count = t.retry_count + 1 ∧
      (handleTaskError t e).2.status = TaskStatus.retrying) ∧
    ((handleTaskError t e).1 = false →
      (handleTaskError t e).2.retry_count = t.retry_count ∧
      (handleTaskError t e).2.status = TaskStatus.failed) ∧
    (handleTaskError t e).2.retry_count ≤ (handleTaskError t e).2.max_retries ∧
    (executeSingleTask t).retry_count ≤ (executeSingleTask t).max_retries := by
  obtain ⟨-, hm, -, htrue, hfalse⟩ :=
    handleTaskError_fields t e (handleTaskError t e).1 (handleTaskError t e).2 rfl
  have hb : (handleTaskError t e).1 = decide (t.retry_count < t.max_retries) := by
    simp [handleTaskError]
    split <;> simp_all
  refine ⟨?_, ?_, ?_, ?_, ?_⟩
  · rw [hb]; simp
  · intro hx
    obtain ⟨h1, -, h3, -⟩ := htrue hx
    exact ⟨h1, h3⟩
  · intro hx
    obtain ⟨h1, h3, -, -⟩ := hfalse hx
    exact ⟨h1, h3⟩
  · rw [hm]
    rcases hx : (handleTaskError t e).1 with - | -
    · obtain ⟨h1, -, -, -⟩ := hfalse hx
      omega
    · obtain ⟨h1, h2, -, -⟩ := htrue hx
      omega
  · have h5 := (executeSingleTask_spec t).2.2.2.2 h
    have h4 := (executeSingleTask_spec t).2.2.2.1
    rw [h4]
    exact h5

/-- C8 witness: the bound instantiated on the concrete failing task. -/
theorem retry_bound_invariant_witness :
    exFail.retry_count ≤ exFail.max_retries ∧
    (executeSingleTask exFail).retry_count ≤ (executeSingleTask exFail).max_retries :=
  ⟨by decide, (retry_bound_invariant exFail "again" (by decide)).2.2.2.2⟩

/-! C5: the save/load round trip through the persisted file. -/

/-- `TaskStatus(str(s))` always raises: the repr string is not a value. -/
theorem parseTaskStatus_pyStr (s : TaskStatus) : parseTaskStatus (pyStrTaskStatus s) = none := by
  cases s <;> decide

/-- `WorkflowStatus(str(s))` always raises. -/
theorem parseWorkflowStatus_pyStr (s : WorkflowStatus) :
    parseWorkflowStatus (pyStrWorkflowStatus s) = none := by
  cases s <;> decide

/-- Loading any serialized task fails on its status field. -/
theorem parseTask_serializeTask (t : Task) : parseTask (serializeTask t) = none := by
  simp [parseTask, serializeTask, parseTaskStatus_pyStr]

/-- Loading any serialized workflow document fails: with at least one task,
on the first task's status; with none, on the workflow status. -/
theorem parseState_serializeState (ws : WorkflowState) :
    parseState (serializeState ws) = none := by
  rcases hts : ws.tasks with - | ⟨t, rest⟩
  · simp [parseState, serializeState, hts, parseWorkflowStatus_pyStr]
  · simp [parseState, serializeState, hts, List.mapM.loop, parseTask_serializeTask]

/-- C5: the claim says save followed by a cold-start load returns the saved
state up to timestamp precision, with enums and timestamps reconstructed.
In the code this never happens: `save_state` serializes every enum through
`json.dump(default=str)` as its repr (`"TaskStatus.PENDING"`,
`"WorkflowStatus.CREATED"`), while `load_state` reconstructs with
`TaskStatus(value)` / `WorkflowStatus(value)`, which accept only the
lowercase `.value` strings and raise `ValueError`; the surrounding `try`
catches it and returns `None`.  So a cold-start load of *any* state saved
by this code yields `None` — no state is ever reloadable from disk.  (The
missing-id half of the claim does hold: a missing file yields `None`, not
an error.) -/
theorem save_then_coldLoad_none (disk : SerDisk) (ws : WorkflowState) (i : String) :
    loadStateFromDisk (saveStateToDisk disk ws) ws.workflow_id = none ∧
    loadStateFromDisk ([] : SerDisk) i = none := by
  constructor
  · simp [loadStateFromDisk, saveStateToDisk, List.find?, parseState_serializeState]
  · rfl

/-! Helper lemmas about the ready-set loop. -/

/-- Every task of an updated list is an original task or an executed one. -/
theorem updateTasks_mem (tasks done : List Task) (t : Task) (h : t ∈ updateTasks tasks done) :
    t ∈ tasks ∨ t ∈ done := by
  unfold updateTasks at h
  obtain ⟨s, hs, hmap⟩ := List.mem_map.mp h
  rcases hfind : done.find? (fun d => d.task_id == s.task_id) with - | d
  · rw [hfind] at hmap
    exact Or.inl (hmap ▸ hs)
  · rw [hfind] at hmap
    exact Or.inr (hmap ▸ List.mem_of_find?_eq_some hfind)

theorem executeSingleTask_status_cases (t : Task) :
    (executeSingleTask t).status = TaskStatus.completed ∨
    (executeSingleTask t).status = TaskStatus.failed := by
  have h := (executeSingleTask_spec t).1
  rcases hf : t.function with e | r
  · rw [hf] at h
    exact Or.inr h
  · rw [hf] at h
    exact Or.inl h

theorem executeTasksLoop_fst_env (fuel : Nat) (env env2 : PersistEnv) (ws : WorkflowState)
    (c f : List String) :
    (executeTasksLoop fuel env ws c f).1 = (executeTasksLoop fuel env2 ws c f).1 := by
  induction fuel generalizing env env2 ws c f with
  | zero => rfl
  | succ n ih =>
    simp only [executeTasksLoop]
    split
    · split
      · split <;> rfl
      · exact ih _ _ _ _ _
    · rfl

theorem executeTasksLoop_failing (fuel : Nat) (d : List (String × WorkflowState))
    (ws : WorkflowState) (c f : List String) :
    (executeTasksLoop fuel { disk := d, failing := true } ws c f).2
      = { disk := d, failing := true } := by
  induction fuel generalizing ws c f with
  | zero => rfl
  | succ n ih =>
    simp only [executeTasksLoop]
    split
    · split
      · split <;> rfl
      · simp only [saveState]
        split
        · exact ih _ _ _
        · simp_all
    · rfl

theorem executeTasksLoop_provenance (fuel : Nat) (env : PersistEnv) (ws : WorkflowState)
    (c f : List String) (t : Task)
    (h : t ∈ (executeTasksLoop fuel env ws c f).1.1.tasks) :
    t ∈ ws.tasks ∨ t.status = TaskStatus.completed ∨ t.status = TaskStatus.failed := by
  induction fuel generalizing env ws c f with
  | zero => exact Or.inl h
  | succ n ih =>
    rw [executeTasksLoop] at h
    split at h
    · dsimp only at h
      split at h
      · split at h
        · exact Or.inl h
        · exact Or.inl h
      · rcases ih _ _ _ _ h with hm | hs
        · have hm2 : t ∈ updateTasks ws.tasks
              (List.map executeSingleTask (getReadyTasks ws.tasks c f)) := hm
          rcases updateTasks_mem _ _ _ hm2 with hm3 | hm3
          · exact Or.inl hm3
          · obtain ⟨s, hs2, hmap⟩ := List.mem_map.mp hm3
            rcases executeSingleTask_status_cases s with hc | hc
            · exact Or.inr (Or.inl (hmap ▸ hc))
            · exact Or.inr (Or.inr (hmap ▸ hc))
        · exact Or.inr hs
    · exact Or.inl h

/-- C2: the claim says re-execution from persisted state treats tasks with
persisted COMPLETED / terminal FAILED / CANCELLED status as decided and
re-runs only undecided tasks.  The code does the opposite: `_execute_tasks`
always restarts from empty `completed_tasks` / `failed_tasks` sets, and
ready-set selection is completely blind to `task.status` — it commutes
with any rewriting of the statuses, and membership is characterized by the
id sets and dependencies alone. -/
theorem readySet_ignores_status (tasks : List Task) (c f : List String) (σ : Task → TaskStatus)
    (env : PersistEnv) (ws : WorkflowState) (t : Task) :
    (getReadyTasks (tasks.map (fun u => { u with status := σ u })) c f
      = (getReadyTasks tasks c f).map (fun u => { u with status := σ u })) ∧
    (t ∈ getReadyTasks tasks c f ↔
      t ∈ tasks ∧ c.contains t.task_id = false ∧ f.contains t.task_id = false ∧
        ∀ d ∈ t.dependencies, c.contains d = true) ∧
    executeTasksP env ws = executeTasksLoop (ws.tasks.length + 1) env ws [] [] := by
  refine ⟨?_, ?_, rfl⟩
  · simp [getReadyTasks, List.filter_map]
    rfl
  · simp [getReadyTasks, List.mem_filter, and_assoc]

/-- C2 counterexample: a task whose persisted status is COMPLETED (with its
old result still recorded) is executed again on re-execution — its
function runs, fails, and overwrites the record with FAILED. -/
theorem completed_task_reexecuted :
    exDone.status = TaskStatus.completed ∧
    (executeTasksP env0 (mkWs [exDone])).1.1.tasks = [exDoneFailed] ∧
    exDoneFailed.status = TaskStatus.failed ∧ exDoneFailed.error = some "boom" := by
  refine ⟨rfl, ?_, rfl, rfl⟩
  simp +decide [executeTasksP, executeTasksLoop, getReadyTasks, updateTasks, insertId,
    saveState, env0, mkWs, exDone_run, exDoneFailed]

/-- C3: the claim says workflow status is COMPLETED iff every task is
COMPLETED.  What the code actually guarantees: `execute_workflow` marks
COMPLETED exactly when `_execute_tasks` raised no `WorkflowError` (and
FAILED otherwise); that raise only happens when the ready set is empty
with a nonempty failed set *while undecided tasks remain*, so COMPLETED
neither requires nor implies that all tasks are COMPLETED. -/
theorem workflow_completed_iff_no_error (env : PersistEnv) (ws : WorkflowState) :
    ((executeWorkflowP env ws).1.2 = none ↔
      (executeWorkflowP env ws).1.1.status = WorkflowStatus.completed) ∧
    ((executeWorkflowP env ws).1.1.status = WorkflowStatus.completed ∨
      (executeWorkflowP env ws).1.1.status = WorkflowStatus.failed) := by
  simp only [executeWorkflowP]
  split
  · simp
  · simp

/-- C3 counterexample: the cyclic pair is never ready, yet the loop breaks
with no failure and the workflow finishes COMPLETED with both tasks still
PENDING; likewise a workflow whose only task fails terminally finishes
COMPLETED with a FAILED task (the failed-set check is skipped once every
task is decided). -/
theorem completed_workflow_with_undone_tasks :
    ((executeWorkflowP env0 cycWs).1.1.status = WorkflowStatus.completed ∧
      (executeWorkflowP env0 cycWs).1.1.tasks = [cycA, cycB] ∧
      cycA.status = TaskStatus.pending ∧ cycB.status = TaskStatus.pending) ∧
    ((executeWorkflowP env0 (mkWs [exFail])).1.1.status = WorkflowStatus.completed ∧
      (executeWorkflowP env0 (mkWs [exFail])).1.1.tasks = [exFailDone] ∧
      exFailDone.status = TaskStatus.failed) := by
  refine ⟨⟨?_, ?_, rfl, rfl⟩, ?_, ?_, rfl⟩ <;>
    simp +decide [executeWorkflowP, executeTasksP, executeTasksLoop, getReadyTasks, updateTasks,
      insertId, saveState, env0, mkWs, cycWs, exFail_run, exFailDone]

/-- C4: the claim says a terminal task failure marks every still-PENDING
transitive dependent as FAILED with kind Dependency and persists that.  No
such marking exists: every task record in the final state is either
exactly its input record (dependents of dead tasks are never touched —
they keep status PENDING and an unset error) or was executed and ended
COMPLETED or FAILED on its own account. -/
theorem tasks_untouched_or_executed (env : PersistEnv) (ws : WorkflowState) (t : Task)
    (h : t ∈ (executeTasksP env ws).1.1.tasks) :
    t ∈ ws.tasks ∨ t.status = TaskStatus.completed ∨ t.status = TaskStatus.failed :=
  executeTasksLoop_provenance _ _ _ _ _ _ h

/-- C4 witness: the provenance statement instantiated on the one-task run. -/
theorem tasks_untouched_or_executed_witness :
    exFailDone ∈ (executeTasksP env0 (mkWs [exFail])).1.1.tasks ∧
    (exFailDone ∈ (mkWs [exFail]).tasks ∨ exFailDone.status = TaskStatus.completed ∨
      exFailDone.status = TaskStatus.failed) := by
  have hm : exFailDone ∈ (executeTasksP env0 (mkWs [exFail])).1.1.tasks := by
    simp +decide [executeTasksP, executeTasksLoop, getReadyTasks, updateTasks, insertId,
      saveState, env0, mkWs, exFail_run, exFailDone]
  exact ⟨hm, tasks_untouched_or_executed env0 (mkWs [exFail]) exFailDone hm⟩

/-- C4 counterexample: `t1` fails terminally and `t2` depends on it; the
workflow goes FAILED through the raised `WorkflowError`, but `t2` is never
marked — it remains PENDING with no error kind at all. -/
theorem dependent_left_pending :
    (executeWorkflowP env0 (mkWs [exFail, exDep])).1.1.status = WorkflowStatus.failed ∧
    (executeWorkflowP env0 (mkWs [exFail, exDep])).1.1.tasks = [exFailDone, exDep] ∧
    (executeWorkflowP env0 (mkWs [exFail, exDep])).1.2 = some "Workflow blocked by failed tasks" ∧
    exDep.status = TaskStatus.pending ∧ exDep.error = none := by
  refine ⟨?_, ?_, ?_, rfl, rfl⟩ <;>
    simp +decide [executeWorkflowP, executeTasksP, executeTasksLoop, getReadyTasks, updateTasks,
      insertId, saveState, env0, mkWs, exFail_run, exFailDone]

/-- The visible result of a whole workflow run does not depend on the
persistence environment: every returned boolean of save_state is ignored. -/
theorem executeWorkflowP_fst_env (env env2 : PersistEnv) (ws : WorkflowState) :
    (executeWorkflowP env ws).1 = (executeWorkflowP env2 ws).1 := by
  simp only [executeWorkflowP, executeTasksP]
  rw [executeTasksLoop_fst_env (ws.tasks.length + 1)
      ((saveState env { ws with status := WorkflowStatus.running }).2)
      ((saveState env2 { ws with status := WorkflowStatus.running }).2)
      { ws with status := WorkflowStatus.running } [] []]
  split <;> rfl

/-- C10: `save_state` never raises — with a failing backing store it is
total, returns `False`, and persists nothing — and the orchestrator
ignores the returned boolean everywhere, so a whole workflow run computes
exactly the same result whether every save succeeded or every save failed,
and a run during which nothing was ever durably persisted can still end
COMPLETED. -/
theorem saveState_failure_ignored (d : List (String × WorkflowState)) (ws s : WorkflowState) :
    saveState { disk := d, failing := true } s = (false, { disk := d, failing := true }) ∧
    (executeWorkflowP { disk := d, failing := true } ws).1
      = (executeWorkflowP { disk := d, failing := false } ws).1 ∧
    (executeWorkflowP { disk := d, failing := true } ws).2 = { disk := d, failing := true } ∧
    ((executeWorkflowP { disk := [], failing := true } okWs).1.1.status
        = WorkflowStatus.completed ∧
      (executeWorkflowP { disk := [], failing := true } okWs).2.disk = []) := by
  refine ⟨by simp [saveState], executeWorkflowP_fst_env _ _ _, ?_, ?_, ?_⟩
  · simp only [executeWorkflowP, executeTasksP, saveState]
    simp only [reduceIte]
    rw [executeTasksLoop_failing]
    split <;> simp [saveState]
  · simp +decide [executeWorkflowP, executeTasksP, executeTasksLoop, getReadyTasks, updateTasks,
      insertId, saveState, okWs, mkWs, exOk_run]
  · simp +decide [executeWorkflowP, executeTasksP, executeTasksLoop, getReadyTasks, updateTasks,
      insertId, saveState, okWs, mkWs, exOk_run]

/-- Characterization of `_validate_dependencies`: it succeeds exactly when
every dependency id occurs among the task ids — connectivity only, no
cycle detection. -/
theorem validateDependencies_ok_iff (tasks : List Task) :
    validateDependencies tasks = Except.ok () ↔
    ∀ t ∈ tasks, ∀ d ∈ t.dependencies, d ∈ tasks.map Task.task_id := by
  simp only [validateDependencies]
  rcases hfs : tasks.findSome? (fun t =>
      (t.dependencies.find? (fun d => !((tasks.map Task.task_id).contains d))).map
        (fun d => (t.task_id, d))) with - | pr
  · simp only [hfs]
    simp only [List.findSome?_eq_none_iff, Option.map_eq_none', List.find?_eq_none,
      Bool.not_eq_true', Bool.not_eq_true] at hfs
    constructor
    · intro _ t ht d hd
      have h2 := hfs t ht d hd
      exact List.elem_iff.mp (by simpa using h2)
    · intro _
      trivial
  · simp only [hfs]
    obtain ⟨t, ht, hmap⟩ := List.exists_of_findSome?_eq_some hfs
    obtain ⟨d, hfind, -⟩ := Option.map_eq_some'.mp hmap
    have hd := List.mem_of_find?_eq_some hfind
    have hp := List.find?_some hfind
    simp only [Bool.not_eq_true'] at hp
    constructor
    · intro hc
      cases hc
    · intro hall
      exfalso
      have h2 := hall t ht d hd
      rw [List.contains_eq_any_beq] at hp
      simp only [List.any_eq_false] at hp
      exact absurd (beq_self_eq_true d) (by simpa using hp d h2)

/-- C1: the claim says create_workflow rejects every cyclic dependency
graph with a construction error and that a topological order exists for
every accepted set.  The construction-time validation only checks that
each dependency id refers to a task of the same set
(`_validate_dependencies` raises `WorkflowError` on a dangling id, before
anything is saved); cycles among existing ids pass it, so acceptance is
equivalent to dependency-id closure, and an accepted state may be cyclic. -/
theorem createWorkflow_rejects_only_missing_deps (env : PersistEnv) (nm : String)
    (tasks : List Task) :
    ((∃ e, createWorkflow env nm tasks = Except.error e) ↔
      ∃ t ∈ tasks, ∃ d ∈ t.dependencies, d ∉ tasks.map Task.task_id) ∧
    (∀ ws env2, createWorkflow env nm tasks = Except.ok (ws, env2) →
      ws = { workflow_id := "wf-0", name := nm, status := WorkflowStatus.created,
             tasks := tasks } ∧
      env2 = (saveState env ws).2) := by
  rcases hv : validateDependencies tasks with e | u
  · have hnall : ¬ ∀ t ∈ tasks, ∀ d ∈ t.dependencies, d ∈ tasks.map Task.task_id := by
      intro hall
      rw [(validateDependencies_ok_iff tasks).mpr hall] at hv
      cases hv
    constructor
    · constructor
      · intro _
        push_neg at hnall
        obtain ⟨t, ht, d, hd, hnot⟩ := hnall
        exact ⟨t, ht, d, hd, hnot⟩
      · intro _
        exact ⟨e, by simp only [createWorkflow, hv]⟩
    · intro ws env2 h
      simp only [createWorkflow, hv] at h
      exact Except.noConfusion h
  · cases u
    have hall := (validateDependencies_ok_iff tasks).mp hv
    constructor
    · constructor
      · rintro ⟨e, he⟩
        simp only [createWorkflow, hv] at he
        exact Except.noConfusion he
      · rintro ⟨t, ht, d, hd, hnot⟩
        exact absurd (hall t ht d hd) hnot
    · intro ws env2 h
      simp only [createWorkflow, hv, Except.ok.injEq, Prod.mk.injEq] at h
      obtain ⟨h1, h2⟩ := h
      exact ⟨h1.symm, by rw [← h2, ← h1]⟩

/-- C1 witness: acceptance of the dependency-closed cyclic pair, through
the characterization. -/
theorem createWorkflow_rejects_only_missing_deps_witness :
    createWorkflow env0 "cyc" [cycA, cycB]
        = Except.ok (cycWs, (saveState env0 cycWs).2) ∧
    (saveState env0 cycWs).2.disk = [("wf-0", cycWs)] := by
  rcases hc : createWorkflow env0 "cyc" [cycA, cycB] with e | p
  · exfalso
    have hbad := (createWorkflow_rejects_only_missing_deps env0 "cyc" [cycA, cycB]).1.mp ⟨e, hc⟩
    revert hbad
    decide
  · obtain ⟨h1, h2⟩ :=
      (createWorkflow_rejects_only_missing_deps env0 "cyc" [cycA, cycB]).2 p.1 p.2 (by rw [hc])
    have hws : p.1 = cycWs := by rw [h1]; rfl
    constructor
    · rw [show p = (p.1, p.2) from rfl, hws, h2, hws]
    · decide

/-- C1 counterexample: the cyclic pair (every dependency id present) is
accepted — create_workflow returns an id and persists the state instead of
raising — and no topological order of its dependency graph exists. -/
theorem cycle_accepted_and_persisted :
    createWorkflow env0 "cyc" [cycA, cycB]
        = Except.ok (cycWs, { disk := [("wf-0", cycWs)], failing := false }) ∧
    ¬ ∃ ord : List String, isTopoOrder [cycA, cycB] ord := by
  constructor
  · rfl
  · rintro ⟨ord, -, -, hord⟩
    have h1 := hord cycA (by simp) "b" (by simp [cycA])
    have h2 := hord cycB (by simp) "a" (by simp [cycB])
    simp only [cycA, cycB] at h1 h2
    omega

/-- C6: the claim says terminal workflow statuses are stable: pause is a
no-op unless RUNNING and cancel is a no-op when already terminal.  In the
code only `resume_workflow` inspects the current status (acting exactly on
PAUSED): `pause_workflow` sets PAUSED and `cancel_workflow` sets CANCELLED
unconditionally for every existing workflow, terminal or not, so terminal
statuses are not stable under these operations. -/
theorem pause_cancel_ignore_status (ws : WorkflowState) (env : PersistEnv) (wid : String) :
    (pauseWorkflowState ws).status = WorkflowStatus.paused ∧
    (cancelWorkflowState ws).status = WorkflowStatus.cancelled ∧
    (∀ w, loadState env wid = some w →
      pauseWorkflow env wid = (true, (saveState env (pauseWorkflowState w)).2) ∧
      cancelWorkflow env wid = (true, (saveState env (cancelWorkflowState w)).2)) ∧
    (loadState env wid = none →
      pauseWorkflow env wid = (false, env) ∧ cancelWorkflow env wid = (false, env)) ∧
    ((resumeWorkflow env wid).1 = true →
      ∃ w, loadState env wid = some w ∧ w.status = WorkflowStatus.paused) := by
  refine ⟨rfl, rfl, ?_, ?_, ?_⟩
  · intro w hw
    constructor
    · simp only [pauseWorkflow, hw]
    · simp only [cancelWorkflow, hw]
  · intro hn
    constructor
    · simp only [pauseWorkflow, hn]
    · simp only [cancelWorkflow, hn]
  · intro hr
    simp only [resumeWorkflow] at hr
    rcases hl : loadState env wid with - | w
    · rw [hl] at hr
      cases hr
    · rw [hl] at hr
      dsimp only at hr
      by_cases hs : w.status = WorkflowStatus.paused
      · exact ⟨w, rfl, hs⟩
      · rw [if_neg hs] at hr
        cases hr

/-- C6 witness: pausing an existing workflow through the load path. -/
theorem pause_cancel_ignore_status_witness :
    loadState doneEnv "w1" = some doneWs ∧
    pauseWorkflow doneEnv "w1" = (true, (saveState doneEnv (pauseWorkflowState doneWs)).2) := by
  have hl : loadState doneEnv "w1" = some doneWs := by decide
  exact ⟨hl, ((pause_cancel_ignore_status doneWs doneEnv "w1").2.2.1 doneWs hl).1⟩

/-- C6 counterexample: a workflow whose status is the terminal COMPLETED is
overwritten to PAUSED by pause_workflow (which reports success) and to
CANCELLED by cancel_workflow — neither is a no-op. -/
theorem terminal_status_overwritten :
    doneWs.status = WorkflowStatus.completed ∧
    (pauseWorkflow doneEnv "w1").1 = true ∧
    loadState (pauseWorkflow doneEnv "w1").2 "w1"
      = some { doneWs with status := WorkflowStatus.paused } ∧
    (cancelWorkflow doneEnv "w1").1 = true ∧
    loadState (cancelWorkflow doneEnv "w1").2 "w1"
      = some { doneWs with status := WorkflowStatus.cancelled } := by
  refine ⟨rfl, ?_, ?_, ?_, ?_⟩ <;> decide

/-- Per-file check characterization when the manifest entry records a
digest. -/
theorem checkFile_true_iff (fs : FileSystem) (fi : CacheFileInfo) (h : fi.hash.isSome) :
    checkFile fs fi = true ↔ ∃ dg, fi.hash = some dg ∧ fs fi.path = some (fi.size, dg) := by
  obtain ⟨dg, hdg⟩ := Option.isSome_iff_exists.mp h
  rcases hfs : fs fi.path with - | sd
  · simp [checkFile, hfs, hdg]
  · obtain ⟨s1, s2⟩ := sd
    simp only [checkFile, hfs, hdg, Option.some.injEq, Prod.mk.injEq]
    constructor
    · intro hc
      by_cases hsz : s1 = fi.size
      · rw [if_neg (by simp [hsz])] at hc
        exact ⟨dg, rfl, hsz, eq_of_beq hc⟩
      · rw [if_pos (by simp [hsz])] at hc
        cases hc
    · rintro ⟨dg2, hdg2, hs1, hs2⟩
      subst hdg2
      rw [if_neg (by simp [hs1])]
      simp [hs2]

/-- C9: with a manifest of the shape the program itself writes (every
`files` entry carries a recorded sha256 — all four `save_cache_info` call
sites include `'hash'`), `is_cache_valid` returns true exactly when the
manifest is present, its timestamp is within the 24-hour TTL, and every
listed file exists with matching size and matching digest; a missing
manifest is invalid.  Any single failed check makes the `all` fold false,
and the check is a total function — the Python `try` wrapper never lets an
exception escape. -/
theorem isCacheValid_iff_spec (now : Int) (ci : CacheInfo) (fs : FileSystem)
    (hh : ∀ fi ∈ ci.files, fi.hash.isSome) :
    (isCacheValid now (some ci) fs = true ↔ specCacheValid now (some ci) fs) ∧
    isCacheValid now none fs = false := by
  refine ⟨?_, rfl⟩
  simp only [isCacheValid, specCacheValid]
  split_ifs with ht
  · constructor
    · intro hc
      cases hc
    · rintro ⟨ci2, hci, hle, -⟩
      injection hci with hci2
      rw [← hci2] at hle
      omega
  · rw [List.all_eq_true]
    constructor
    · intro hall
      refine ⟨ci, rfl, by omega, ?_⟩
      intro fi hfi
      obtain ⟨dg, h1, h2⟩ := (checkFile_true_iff fs fi (hh fi hfi)).mp (hall fi hfi)
      exact ⟨dg, h1, h2⟩
    · rintro ⟨ci2, hci, -, hfiles⟩ fi hfi
      injection hci with hci2
      subst hci2
      obtain ⟨dg, h1, h2⟩ := hfiles fi hfi
      exact (checkFile_true_iff fs fi (hh fi hfi)).mpr ⟨dg, h1, h2⟩

/-- C9 witness: the equivalence instantiated on a concrete fresh manifest
and agreeing filesystem, on which the check returns true. -/
theorem isCacheValid_iff_spec_witness :
    (∀ fi ∈ exManifest.files, fi.hash.isSome) ∧
    isCacheValid 1000 (some exManifest) exFs = true ∧
    specCacheValid 1000 (some exManifest) exFs := by
  have hh : ∀ fi ∈ exManifest.files, fi.hash.isSome := by decide
  have hv : isCacheValid 1000 (some exManifest) exFs = true := by
    simp +decide [isCacheValid, checkFile, exManifest, exFileInfo, exFs]
  exact ⟨hh, hv, ((isCacheValid_iff_spec 1000 exManifest exFs hh).1).mp hv⟩
